import Mathlib

/-!
Verification of the Dreo Home Assistant light platform
(`custom_components/dreo/light.py`).

The Python code is shallowly embedded: Python numbers are modelled by `ℤ`/`ℚ`,
Python's dynamically typed device attribute values by the inductive `PyVal`,
and code that can raise an exception by `Except PyErr`.  Python's built-in
`round` (round-half-to-even, "banker's rounding") is modelled by `pyRound`.
-/

/-- Exceptions that the embedded code can raise.  `float(...)` raises
`ValueError` on an unparsable string and `TypeError` on a value (such as a
list or `None`) that is not a string or a number. -/
inductive PyErr where
  | valueError
  | typeError
deriving DecidableEq, Repr

/-- A dynamically typed Python value as stored in a pydreo device attribute. -/
inductive PyVal where
  | pyNone
  | pyBool (b : Bool)
  | pyInt (n : ℤ)
  | pyFloat (q : ℚ)
  | pyStr (s : String)
  | pyList (elems : List PyVal)

/-- Python's `x is None` test. -/
def PyVal.isNone : PyVal → Bool
  | .pyNone => true
  | _ => false

/-- Python truthiness (`bool(x)`): `None` and empty/zero values are falsy. -/
def pyTruthy : PyVal → Bool
  | .pyNone => false
  | .pyBool b => b
  | .pyInt n => n != 0
  | .pyFloat q => q != 0
  | .pyStr s => s != ""
  | .pyList elems => !elems.isEmpty

/-- Value of a (checked) list of decimal digit characters. -/
def digitsVal (cs : List Char) : ℕ :=
  cs.foldl (fun n c => 10 * n + (c.toNat - 48)) 0

/-- The leading/trailing-whitespace stripping `float(str)` performs on its
string argument. -/
def stripChars (cs : List Char) : List Char :=
  ((cs.dropWhile (·.isWhitespace)).reverse.dropWhile (·.isWhitespace)).reverse

/-- Parser for the decimal literals accepted by Python's `float(str)`:
optional sign, integer digits, optional fractional part (we do not model
exponents or the special `inf`/`nan` spellings, which the devices never
report).  Returns `none` exactly when `float` would raise `ValueError`. -/
def pyParseFloat (s : String) : Option ℚ :=
  let cs := stripChars s.data
  let signAndRest : ℤ × List Char :=
    match cs with
    | '-' :: r => (-1, r)
    | '+' :: r => (1, r)
    | r => (1, r)
  let sgn := signAndRest.1
  let body := signAndRest.2
  let intDigits := body.takeWhile (·.isDigit)
  let rest := body.dropWhile (·.isDigit)
  match rest with
  | [] =>
    if intDigits.isEmpty then none
    else some ((sgn : ℚ) * (digitsVal intDigits : ℚ))
  | '.' :: fracDigits =>
    if fracDigits.all (·.isDigit) && !(intDigits.isEmpty && fracDigits.isEmpty) then
      some ((sgn : ℚ) *
        ((digitsVal intDigits : ℚ) + (digitsVal fracDigits : ℚ) / (10 : ℚ) ^ fracDigits.length))
    else none
  | _ => none

/-- Python's `float(x)` conversion on a `PyVal`. -/
def pyFloatOf : PyVal → Except PyErr ℚ
  | .pyNone => .error .typeError
  | .pyBool b => .ok (if b then 1 else 0)
  | .pyInt n => .ok (n : ℚ)
  | .pyFloat q => .ok q
  | .pyStr s =>
    match pyParseFloat s with
    | some q => .ok q
    | none => .error .valueError
  | .pyList _ => .error .typeError

/-- Python's built-in `round` to the nearest integer, ties to even. -/
def pyRound (q : ℚ) : ℤ :=
  let f := ⌊q⌋
  let r := q - (f : ℚ)
  if r < 1 / 2 then f
  else if 1 / 2 < r then f + 1
  else if f % 2 = 0 then f else f + 1

/-- Home Assistant's `homeassistant.util.percentage.states_in_range`,
embedded from the upstream Home Assistant library (imported by
`light.py` line 8; the repository does not vendor it):
the number of states in an inclusive low/high range. -/
def states_in_range (low_high_range : ℤ × ℤ) : ℚ :=
  ((low_high_range.2 - low_high_range.1 + 1 : ℤ) : ℚ)

/-- Home Assistant's `homeassistant.util.percentage.percentage_to_ranged_value`,
embedded from the upstream Home Assistant library:
`states_in_range(range) * percentage / 100 + (range[0] - 1)`. -/
def percentage_to_ranged_value (low_high_range : ℤ × ℤ) (percentage : ℚ) : ℚ :=
  states_in_range low_high_range * percentage / 100 + ((low_high_range.1 : ℚ) - 1)

/-- The pydreo device object as seen from `light.py`: a dynamic attribute
environment (for `getattr`) plus the `brightness` and `colortemp` properties.
The pydreo property setters forward native commands to the device (per the
comments in `light.py` lines 278-283); the device-visible state only changes
on a later server push, so attribute assignments made by the HA layer are
recorded in `sentCommands`. -/
structure PyDreoDevice where
  attrs : String → Option PyVal
  brightness : PyVal
  colortemp : PyVal
  sentCommands : List (String × PyVal)

/-- `setattr(device, name, v)`: the pydreo property setter sends the native
command named by `name` with value `v`. -/
def setattrOnDevice (dev : PyDreoDevice) (attrName : String) (v : PyVal) : PyDreoDevice :=
  { dev with sentCommands := dev.sentCommands ++ [(attrName, v)] }

/-- `DreoLightEntityDescription` (light.py lines 33-50). -/
structure DreoLightEntityDescription where
  key : String
  name : String := ""
  pydreo_light_attr : Option String := none
  value_fn : Option (PyDreoDevice → Bool) := none
  set_fn : Option (PyDreoDevice → Bool → PyDreoDevice) := none
  pydreo_brightness_cmd : Option String := none
  pydreo_brightness_range : Option (ℤ × ℤ) := none
  pydreo_colortemp_cmd : Option String := none
  pydreo_colortemp_range : Option (ℤ × ℤ) := none
  ha_min_color_temp_kelvin : Option ℤ := none
  ha_max_color_temp_kelvin : Option ℤ := none

/-- Home Assistant's `ColorMode` values used by `light.py`. -/
inductive ColorMode where
  | onoff
  | brightness
  | color_temp
deriving DecidableEq

/-- Python truthiness of an `Optional[str]` (`None` and `""` are falsy). -/
def optStrTruthy : Option String → Bool
  | none => false
  | some s => s != ""

/-- Python truthiness of an `Optional[int]` (`None` and `0` are falsy). -/
def optIntTruthy : Option ℤ → Bool
  | none => false
  | some n => n != 0

/-- The supported-color-mode negotiation of `DreoLightHA.__init__`
(light.py lines 203-223). -/
def initSupportedColorModes (d : DreoLightEntityDescription) : Finset ColorMode :=
  let modes : Finset ColorMode := ∅
  let modes :=
    if optStrTruthy d.pydreo_colortemp_cmd && optIntTruthy d.ha_min_color_temp_kelvin &&
        optIntTruthy d.ha_max_color_temp_kelvin then
      insert ColorMode.color_temp modes
    else modes
  let modes :=
    if modes = ∅ ∧ optStrTruthy d.pydreo_brightness_cmd then
      insert ColorMode.brightness modes
    else modes
  if modes = ∅ then insert ColorMode.onoff modes else modes

/-- The current color mode chosen by `DreoLightHA.__init__`
(light.py lines 226-231). -/
def initColorMode (modes : Finset ColorMode) : ColorMode :=
  if ColorMode.color_temp ∈ modes then ColorMode.color_temp
  else if ColorMode.brightness ∈ modes then ColorMode.brightness
  else ColorMode.onoff

/-- The Home-Assistant-facing cached entity state of a `DreoLightHA`
instance: the `_attr_*` fields written in `__init__` and
`_handle_coordinator_update`. -/
structure DreoLightHA where
  entity_description : DreoLightEntityDescription
  _attr_is_on : Option Bool
  _attr_brightness : Option ℤ
  _attr_color_temp_kelvin : Option ℤ
  _attr_supported_color_modes : Finset ColorMode
  _attr_color_mode : ColorMode

/-- `DreoLightHA.__init__` (light.py lines 177-236): `_attr_brightness` and
`_attr_color_temp_kelvin` start as `None`, the base `LightEntity` leaves
`_attr_is_on` as `None`, and the color modes are negotiated from the
descriptor. -/
def mkDreoLightHA (d : DreoLightEntityDescription) : DreoLightHA :=
  let modes := initSupportedColorModes d
  { entity_description := d
    _attr_is_on := none
    _attr_brightness := none
    _attr_color_temp_kelvin := none
    _attr_supported_color_modes := modes
    _attr_color_mode := initColorMode modes }

/-- `DreoLightHA._get_pydreo_state` (light.py lines 246-256). -/
def get_pydreo_state (e : DreoLightHA) (dev : PyDreoDevice) : Bool :=
  match e.entity_description.value_fn with
  | some f => f dev
  | none =>
    if optStrTruthy e.entity_description.pydreo_light_attr then
      let attrName := e.entity_description.pydreo_light_attr.getD ""
      let val := (dev.attrs attrName).getD (PyVal.pyBool false)
      match val with
      | .pyStr s => s.toLower == "on"
      | other => pyTruthy other
    else false

/-- `DreoLightHA._set_pydreo_state` (light.py lines 258-289). -/
def set_pydreo_state (e : DreoLightHA) (dev : PyDreoDevice) (state : Bool) : PyDreoDevice :=
  match e.entity_description.set_fn with
  | some f => f dev state
  | none =>
    if optStrTruthy e.entity_description.pydreo_light_attr then
      setattrOnDevice dev (e.entity_description.pydreo_light_attr.getD "") (.pyBool state)
    else dev

/-- The host-to-device brightness conversion performed by `async_turn_on`
(light.py lines 299-304): scale HA 0-255 to a percentage, map it through
Home Assistant's `percentage_to_ranged_value`, round, and clamp. -/
def turnOnDeviceBrightness (ha_brightness : ℤ) (range : ℤ × ℤ) : ℤ :=
  let device_min := range.1
  let device_max := range.2
  let ha_brightness_pct : ℚ := ((ha_brightness : ℚ) / 255) * 100
  let device_brightness :=
    pyRound (percentage_to_ranged_value (device_min, device_max) ha_brightness_pct)
  max device_min (min device_max device_brightness)

/-- The host-to-device color-temperature conversion performed by
`async_turn_on` (light.py lines 315-326), for the case where both
Kelvin bounds are integers. -/
def turnOnDeviceColortemp (ha_kelvin min_k max_k : ℤ) (range : ℤ × ℤ) : ℤ :=
  let pct_min := range.1
  let pct_max := range.2
  let device_colortemp_pct : ℚ :=
    if max_k = min_k then (pct_min : ℚ)
    else
      ((ha_kelvin : ℚ) - (min_k : ℚ)) / ((max_k : ℚ) - (min_k : ℚ)) *
        ((pct_max : ℚ) - (pct_min : ℚ)) + (pct_min : ℚ)
  pyRound (max (pct_min : ℚ) (min (pct_max : ℚ) device_colortemp_pct))

/-- The keyword options of `LightEntity.async_turn_on`:
`ATTR_BRIGHTNESS` (0-255) and `ATTR_COLOR_TEMP_KELVIN`. -/
structure TurnOnKwargs where
  brightness : Option ℤ := none
  color_temp_kelvin : Option ℤ := none

/-- `DreoLightHA.async_turn_on` (light.py lines 292-336).  Turns the light
on, then optionally sends a converted brightness and/or color-temperature
native command.  A configured command whose native range is `None` would
make the tuple unpacking on lines 300/318 raise `TypeError`; a Kelvin bound
of `None` with the other an `int` would make the subtraction on line 323
raise `TypeError`, while two `None` bounds compare equal on line 320 and
take the degenerate branch.  The cached `_attr_*` entity state is not
written (the assignments were removed, lines 311 and 333). -/
def async_turn_on (e : DreoLightHA) (dev : PyDreoDevice) (kwargs : TurnOnKwargs) :
    Except PyErr (DreoLightHA × PyDreoDevice) :=
  let dev0 := set_pydreo_state e dev true
  let step1 : Except PyErr PyDreoDevice :=
    if optStrTruthy e.entity_description.pydreo_brightness_cmd && kwargs.brightness.isSome then
      match e.entity_description.pydreo_brightness_range with
      | none => .error .typeError
      | some range =>
        let ha_brightness := kwargs.brightness.getD 0
        .ok (setattrOnDevice dev0 "brightness" (.pyInt (turnOnDeviceBrightness ha_brightness range)))
    else .ok dev0
  match step1 with
  | .error err => .error err
  | .ok dev1 =>
    if optStrTruthy e.entity_description.pydreo_colortemp_cmd &&
        kwargs.color_temp_kelvin.isSome then
      match e.entity_description.pydreo_colortemp_range with
      | none => .error .typeError
      | some range =>
        let ha_kelvin := kwargs.color_temp_kelvin.getD 0
        match e.entity_description.ha_min_color_temp_kelvin,
            e.entity_description.ha_max_color_temp_kelvin with
        | some min_k, some max_k =>
          .ok (e, setattrOnDevice dev1 "colortemp"
            (.pyInt (turnOnDeviceColortemp ha_kelvin min_k max_k range)))
        | none, none =>
          .ok (e, setattrOnDevice dev1 "colortemp"
            (.pyInt (pyRound (max (range.1 : ℚ) (min (range.2 : ℚ) (range.1 : ℚ))))))
        | _, _ => .error .typeError
    else .ok (e, dev1)

/-- `DreoLightHA.async_turn_off` (light.py lines 339-342). -/
def async_turn_off (e : DreoLightHA) (dev : PyDreoDevice) : DreoLightHA × PyDreoDevice :=
  (e, set_pydreo_state e dev false)

/-- The device-to-host brightness conversion of the `brightness` property
getter (light.py lines 356-361), applied after a successful
`float(device_val)`. -/
def deviceToHostBrightness (device_val_num : ℚ) (device_min device_max : ℤ) : ℤ :=
  if device_max = device_min then
    if (device_min : ℚ) ≤ device_val_num then 255 else 0
  else
    let val_percentage :=
      ((device_val_num - (device_min : ℚ)) / ((device_max : ℚ) - (device_min : ℚ))) * 100
    let val_percentage := max 0 (min 100 val_percentage)
    pyRound (val_percentage / 100 * 255)

/-- The `DreoLightHA.brightness` property (light.py lines 344-364).  The
`try`/`except ValueError` around the conversion maps an unparsable string
to the `return None` fall-through; any other exception (such as the
`TypeError` raised by `float` on a list) propagates. -/
def DreoLightHA.brightness (e : DreoLightHA) (dev : PyDreoDevice) : Except PyErr (Option ℤ) :=
  if e._attr_supported_color_modes = ∅ ∨
      ColorMode.brightness ∉ e._attr_supported_color_modes then
    .ok none
  else if optStrTruthy e.entity_description.pydreo_brightness_cmd then
    let device_val := dev.brightness
    if !device_val.isNone && e.entity_description.pydreo_brightness_range.isSome then
      let range := e.entity_description.pydreo_brightness_range.getD (0, 0)
      match pyFloatOf device_val with
      | .ok device_val_num => .ok (some (deviceToHostBrightness device_val_num range.1 range.2))
      | .error .valueError => .ok none
      | .error err => .error err
    else .ok none
  else .ok none

/-- The device-to-host color-temperature conversion of the
`color_temp_kelvin` property getter (light.py lines 381-388), applied after
a successful `float(device_val_pct)`. -/
def deviceToHostColortemp (device_val_pct_num : ℚ) (pct_min pct_max min_k max_k : ℤ) : ℤ :=
  if pct_max = pct_min then
    if device_val_pct_num ≤ (pct_min : ℚ) then min_k else max_k
  else
    let clamped_device_pct := max (pct_min : ℚ) (min (pct_max : ℚ) device_val_pct_num)
    let kelvin_pct_of_range :=
      (clamped_device_pct - (pct_min : ℚ)) / ((pct_max : ℚ) - (pct_min : ℚ))
    let kelvin := (min_k : ℚ) + kelvin_pct_of_range * ((max_k : ℚ) - (min_k : ℚ))
    pyRound (max (min_k : ℚ) (min (max_k : ℚ) kelvin))

/-- The `DreoLightHA.color_temp_kelvin` property (light.py lines 366-391). -/
def DreoLightHA.color_temp_kelvin (e : DreoLightHA) (dev : PyDreoDevice) :
    Except PyErr (Option ℤ) :=
  if e._attr_supported_color_modes = ∅ ∨
      ColorMode.color_temp ∉ e._attr_supported_color_modes then
    .ok none
  else if optStrTruthy e.entity_description.pydreo_colortemp_cmd then
    let device_val_pct := dev.colortemp
    if !device_val_pct.isNone && e.entity_description.pydreo_colortemp_range.isSome &&
        optIntTruthy e.entity_description.ha_min_color_temp_kelvin &&
        optIntTruthy e.entity_description.ha_max_color_temp_kelvin then
      let range := e.entity_description.pydreo_colortemp_range.getD (0, 0)
      let min_k := e.entity_description.ha_min_color_temp_kelvin.getD 0
      let max_k := e.entity_description.ha_max_color_temp_kelvin.getD 0
      match pyFloatOf device_val_pct with
      | .ok device_val_pct_num =>
        .ok (some (deviceToHostColortemp device_val_pct_num range.1 range.2 min_k max_k))
      | .error .valueError => .ok none
      | .error err => .error err
    else .ok none
  else .ok none

/-- The brightness block of `DreoLightHA._handle_coordinator_update`
(light.py lines 420-426): re-read the scaled brightness and record whether
the cached value changed; an exception from the property read propagates. -/
def brightness_update_step (e : DreoLightHA) (dev : PyDreoDevice) :
    Except PyErr (DreoLightHA × Bool) :=
  if ¬e._attr_supported_color_modes = ∅ ∧
      ColorMode.brightness ∈ e._attr_supported_color_modes then
    (DreoLightHA.brightness e dev).map (fun current_brightness_ha =>
      if e._attr_brightness ≠ current_brightness_ha then
        ({ e with _attr_brightness := current_brightness_ha }, true)
      else (e, false))
  else .ok (e, false)

/-- The color-temperature block of `DreoLightHA._handle_coordinator_update`
(light.py lines 429-435). -/
def colortemp_update_step (e : DreoLightHA) (dev : PyDreoDevice) :
    Except PyErr (DreoLightHA × Bool) :=
  if ¬e._attr_supported_color_modes = ∅ ∧
      ColorMode.color_temp ∈ e._attr_supported_color_modes then
    (DreoLightHA.color_temp_kelvin e dev).map (fun current_colortemp_k_ha =>
      if e._attr_color_temp_kelvin ≠ current_colortemp_k_ha then
        ({ e with _attr_color_temp_kelvin := current_colortemp_k_ha }, true)
      else (e, false))
  else .ok (e, false)

/-- `DreoLightHA._handle_coordinator_update` (light.py lines 407-439):
update the cached on/off, brightness and color-temperature state from the
device, and return the updated entity together with the number of
`async_write_ha_state` calls made (one if any tracked value changed,
coalesced over the whole update, else zero). -/
def handle_coordinator_update (e : DreoLightHA) (dev : PyDreoDevice) :
    Except PyErr (DreoLightHA × ℕ) :=
  let new_is_on := get_pydreo_state e dev
  let changed1 : Bool := decide (e._attr_is_on ≠ some new_is_on)
  let e1 :=
    if e._attr_is_on ≠ some new_is_on then { e with _attr_is_on := some new_is_on } else e
  (brightness_update_step e1 dev).bind (fun p2 =>
    (colortemp_update_step p2.1 dev).bind (fun p3 =>
      .ok (p3.1, if changed1 || p2.2 || p3.2 then 1 else 0)))

/-- The first entry of `SUPPORTED_LIGHT_FEATURES` (light.py lines 57-68):
the main fan light with brightness and color-temperature commands. -/
def mainLightFeature : DreoLightEntityDescription :=
  { key := "light_on"
    name := "Light"
    pydreo_light_attr := some "light_on"
    pydreo_brightness_cmd := some "brightness"
    pydreo_colortemp_cmd := some "colortemp"
    pydreo_brightness_range := some (1, 100)
    pydreo_colortemp_range := some (0, 100)
    ha_min_color_temp_kelvin := some 2700
    ha_max_color_temp_kelvin := some 6500 }

/-- The second entry of `SUPPORTED_LIGHT_FEATURES` (light.py lines 69-74):
the on/off-only panel light. -/
def panelLightFeature : DreoLightEntityDescription :=
  { key := "night_light_on"
    name := "Panel Light"
    pydreo_light_attr := some "ledpotkepton" }

/-- `SUPPORTED_LIGHT_FEATURES` (light.py lines 56-92). -/
def SUPPORTED_LIGHT_FEATURES : List DreoLightEntityDescription :=
  [mainLightFeature, panelLightFeature]


/-!  Definitions below are the integer computation layer (kernel-computable
counterparts of the rational conversions, used to evaluate them on concrete
inputs), the spec's own brightness formula for comparison with the code's,
and concrete descriptors/devices used as witnesses. -/

/-- Round-half-to-even of the integer fraction `a / b`, for `b > 0`:
an integer-arithmetic counterpart of `pyRound` on `a / b`. -/
def roundHalfEvenFrac (a b : ℤ) : ℤ :=
  let f := a / b
  let r := a - f * b
  if 2 * r < b then f
  else if b < 2 * r then f + 1
  else if f % 2 = 0 then f else f + 1

/-- Kernel-computable form of the brightness round trip through the native
range `(1, 100)`: host 0-255 to device and back to host. -/
def roundTripBrightnessInt (b : ℤ) : ℤ :=
  let d := max 1 (min 100 (roundHalfEvenFrac ((100 - 1 + 1) * b * 100 + (1 - 1) * 25500) 25500))
  roundHalfEvenFrac ((d - 1) * 255) 99

/-- The spec's own `toDeviceBrightness` formula (spec section 4.1), written
from the spec's words only, to be compared against the code's
`turnOnDeviceBrightness`: scale `hostBrightness/255` to a percentage, then
`native = round(pct/100 * (max-min) + min)`, clamped to `[min,max]`. -/
def specToDeviceBrightness (hostBrightness : ℤ) (range : ℤ × ℤ) : ℤ :=
  let pct : ℚ := ((hostBrightness : ℚ) / 255) * 100
  let native := pyRound (pct / 100 * ((range.2 : ℚ) - (range.1 : ℚ)) + (range.1 : ℚ))
  max range.1 (min range.2 native)

/-- A device that has not reported any native value yet. -/
def emptyDevice : PyDreoDevice :=
  { attrs := fun _ => none
    brightness := PyVal.pyNone
    colortemp := PyVal.pyNone
    sentCommands := [] }

/-- A device whose panel-light attribute reports the string `"ON"`. -/
def onStringDevice : PyDreoDevice :=
  { attrs := fun a => if a = "ledpotkepton" then some (PyVal.pyStr "ON") else none
    brightness := PyVal.pyNone
    colortemp := PyVal.pyNone
    sentCommands := [] }

/-- A device reporting a non-numeric string brightness and an integer
color temperature. -/
def badStringDevice : PyDreoDevice :=
  { attrs := fun _ => none
    brightness := PyVal.pyStr "bad"
    colortemp := PyVal.pyInt 50
    sentCommands := [] }

/-- A device reporting the integer native brightness 7. -/
def intBrightness7Device : PyDreoDevice :=
  { attrs := fun _ => none
    brightness := PyVal.pyInt 7
    colortemp := PyVal.pyNone
    sentCommands := [] }

/-- A device reporting a Python list for both native light values. -/
def listValueDevice : PyDreoDevice :=
  { attrs := fun _ => none
    brightness := PyVal.pyList []
    colortemp := PyVal.pyList []
    sentCommands := [] }

/-- A device reporting in-range integer native brightness and color
temperature. -/
def numericDevice : PyDreoDevice :=
  { attrs := fun _ => none
    brightness := PyVal.pyInt 50
    colortemp := PyVal.pyInt 75
    sentCommands := [] }

/-- A descriptor configuring a brightness command with the degenerate
native range `(5, 5)` and no color-temperature command. -/
def degenerateBrightnessFeature : DreoLightEntityDescription :=
  { key := "light_on"
    pydreo_light_attr := some "light_on"
    pydreo_brightness_cmd := some "brightness"
    pydreo_brightness_range := some (5, 5) }

/-- The result of turning the panel light on with no options: the entity
state is untouched and one native command is recorded. -/
def turnOnPanelResult : DreoLightHA × PyDreoDevice :=
  (mkDreoLightHA panelLightFeature,
    setattrOnDevice emptyDevice "ledpotkepton" (PyVal.pyBool true))

/-!  Helper lemmas. -/

/-- Computation rule for `Except.bind` on a success value. -/
theorem except_ok_bind {ε α β : Type} (a : α) (f : α → Except ε β) :
    (Except.ok a : Except ε α).bind f = f a := rfl

/-- Computation rule for `Except.map` on a success value. -/
theorem except_map_ok {ε α β : Type} (f : α → β) (a : α) :
    Except.map f (Except.ok a : Except ε α) = Except.ok (f a) := rfl

theorem pyRound_intCast (n : ℤ) : pyRound ((n : ℚ)) = n := by
  simp [pyRound]


theorem pyRound_intFrac (a b : ℤ) (hb : 0 < b) :
    pyRound ((a : ℚ) / (b : ℚ)) = roundHalfEvenFrac a b := by
  have hbq : (0 : ℚ) < (b : ℚ) := by exact_mod_cast hb
  have hfloor : ⌊(a : ℚ) / (b : ℚ)⌋ = a / b := by
    obtain ⟨d, rfl⟩ : ∃ d : ℕ, b = (d : ℤ) := ⟨b.toNat, (Int.toNat_of_nonneg hb.le).symm⟩
    exact_mod_cast Rat.floor_intCast_div_natCast a d
  have hr : (a : ℚ) / (b : ℚ) - ((a / b : ℤ) : ℚ) = ((a - a / b * b : ℤ) : ℚ) / (b : ℚ) := by
    push_cast
    field_simp
    ring
  have h1 : ((a : ℚ) / (b : ℚ) - ((a / b : ℤ) : ℚ) < 1 / 2) ↔ (2 * (a - a / b * b) < b) := by
    rw [hr, div_lt_div_iff₀ hbq (by norm_num : (0 : ℚ) < 2)]
    rw [show ((a - a / b * b : ℤ) : ℚ) * 2 = ((2 * (a - a / b * b) : ℤ) : ℚ) by push_cast; ring]
    rw [show (1 : ℚ) * (b : ℚ) = ((b : ℤ) : ℚ) by rw [one_mul]]
    exact Int.cast_lt
  have h2 : ((1 : ℚ) / 2 < (a : ℚ) / (b : ℚ) - ((a / b : ℤ) : ℚ)) ↔ (b < 2 * (a - a / b * b)) := by
    rw [hr, div_lt_div_iff₀ (by norm_num : (0 : ℚ) < 2) hbq]
    rw [show ((a - a / b * b : ℤ) : ℚ) * 2 = ((2 * (a - a / b * b) : ℤ) : ℚ) by push_cast; ring]
    rw [show (1 : ℚ) * (b : ℚ) = ((b : ℤ) : ℚ) by rw [one_mul]]
    exact Int.cast_lt
  simp only [pyRound, roundHalfEvenFrac]
  rw [hfloor]
  simp only [h1, h2]

theorem turnOnDeviceBrightness_int (hb dmin dmax : ℤ) :
    turnOnDeviceBrightness hb (dmin, dmax) =
      max dmin (min dmax
        (roundHalfEvenFrac ((dmax - dmin + 1) * hb * 100 + (dmin - 1) * 25500) 25500)) := by
  simp only [turnOnDeviceBrightness]
  rw [show percentage_to_ranged_value (dmin, dmax) (((hb : ℚ) / 255) * 100) =
      (((dmax - dmin + 1) * hb * 100 + (dmin - 1) * 25500 : ℤ) : ℚ) / ((25500 : ℤ) : ℚ) by
    simp only [percentage_to_ranged_value, states_in_range]
    push_cast
    field_simp
    ring]
  rw [pyRound_intFrac _ _ (by norm_num)]

theorem deviceToHostBrightness_int (v dmin dmax : ℤ) (hlt : dmin < dmax)
    (hv1 : dmin ≤ v) (hv2 : v ≤ dmax) :
    deviceToHostBrightness (v : ℚ) dmin dmax =
      roundHalfEvenFrac ((v - dmin) * 255) (dmax - dmin) := by
  have hD : (0 : ℚ) < (dmax : ℚ) - (dmin : ℚ) := by
    have : (dmin : ℚ) < (dmax : ℚ) := by exact_mod_cast hlt
    linarith
  have hnum0 : (0 : ℚ) ≤ (v : ℚ) - (dmin : ℚ) := by
    have : (dmin : ℚ) ≤ (v : ℚ) := by exact_mod_cast hv1
    linarith
  have hnumD : (v : ℚ) - (dmin : ℚ) ≤ (dmax : ℚ) - (dmin : ℚ) := by
    have : (v : ℚ) ≤ (dmax : ℚ) := by exact_mod_cast hv2
    linarith
  simp only [deviceToHostBrightness]
  rw [if_neg (by omega : ¬dmax = dmin)]
  have hple : ((v : ℚ) - (dmin : ℚ)) / ((dmax : ℚ) - (dmin : ℚ)) * 100 ≤ 100 := by
    rw [div_mul_eq_mul_div, div_le_iff₀ hD]
    nlinarith
  have hpge : (0 : ℚ) ≤ ((v : ℚ) - (dmin : ℚ)) / ((dmax : ℚ) - (dmin : ℚ)) * 100 := by
    have := div_nonneg hnum0 hD.le
    nlinarith
  rw [min_eq_right hple, max_eq_right hpge]
  rw [show ((v : ℚ) - (dmin : ℚ)) / ((dmax : ℚ) - (dmin : ℚ)) * 100 / 100 * 255 =
      (((v - dmin) * 255 : ℤ) : ℚ) / (((dmax - dmin) : ℤ) : ℚ) by
    push_cast
    field_simp
    ring]
  rw [pyRound_intFrac _ _ (by omega)]

theorem turnOnDeviceBrightness_mem (b : ℤ) :
    1 ≤ turnOnDeviceBrightness b (1, 100) ∧ turnOnDeviceBrightness b (1, 100) ≤ 100 := by
  constructor
  · exact le_max_left _ _
  · exact max_le (by norm_num) (min_le_left _ _)

theorem roundTrip_int (b : ℤ) :
    deviceToHostBrightness ((turnOnDeviceBrightness b (1, 100) : ℤ) : ℚ) 1 100 =
      roundTripBrightnessInt b := by
  obtain ⟨h1, h2⟩ := turnOnDeviceBrightness_mem b
  rw [deviceToHostBrightness_int _ _ _ (by norm_num) h1 h2]
  rw [turnOnDeviceBrightness_int]
  norm_num [roundTripBrightnessInt]

theorem specToDeviceBrightness_int (hb dmin dmax : ℤ) :
    specToDeviceBrightness hb (dmin, dmax) =
      max dmin (min dmax (roundHalfEvenFrac (hb * (dmax - dmin) + dmin * 255) 255)) := by
  simp only [specToDeviceBrightness]
  rw [show ((hb : ℚ) / 255) * 100 / 100 * ((dmax : ℚ) - (dmin : ℚ)) + (dmin : ℚ) =
      ((hb * (dmax - dmin) + dmin * 255 : ℤ) : ℚ) / ((255 : ℤ) : ℚ) by
    push_cast
    field_simp
    ring]
  rw [pyRound_intFrac _ _ (by norm_num)]

theorem brightness_none_of_not_mem (e : DreoLightHA) (dev : PyDreoDevice)
    (hmem : ColorMode.brightness ∉ e._attr_supported_color_modes) :
    DreoLightHA.brightness e dev = .ok none := by
  unfold DreoLightHA.brightness
  rw [if_pos (Or.inr hmem)]

theorem colortemp_none_of_not_mem (e : DreoLightHA) (dev : PyDreoDevice)
    (hmem : ColorMode.color_temp ∉ e._attr_supported_color_modes) :
    DreoLightHA.color_temp_kelvin e dev = .ok none := by
  unfold DreoLightHA.color_temp_kelvin
  rw [if_pos (Or.inr hmem)]

theorem brightness_update_step_eq (e : DreoLightHA) (dev : PyDreoDevice) (bv : Option ℤ)
    (hb : DreoLightHA.brightness e dev = .ok bv)
    (hinv : ColorMode.brightness ∉ e._attr_supported_color_modes → e._attr_brightness = none) :
    brightness_update_step e dev =
      .ok ({ e with _attr_brightness := bv }, decide (e._attr_brightness ≠ bv)) := by
  unfold brightness_update_step
  by_cases hg : ¬e._attr_supported_color_modes = ∅ ∧
      ColorMode.brightness ∈ e._attr_supported_color_modes
  · rw [if_pos hg, hb, except_map_ok]
    by_cases hch : e._attr_brightness = bv
    · rw [if_neg (fun hh => hh hch)]
      have heq : ({ e with _attr_brightness := bv }) = e := by rw [← hch]
      rw [heq]
      simp [hch]
    · rw [if_pos hch]
      simp [hch]
  · rw [if_neg hg]
    have hmem : ColorMode.brightness ∉ e._attr_supported_color_modes := by
      rcases not_and_or.mp hg with h | h
      · rw [not_not.mp h]
        exact Finset.not_mem_empty _
      · exact h
    have hbnone : e._attr_brightness = none := hinv hmem
    have hbv : bv = none := by
      have h0 := brightness_none_of_not_mem e dev hmem
      rw [hb] at h0
      injection h0 with h0
    rw [hbv]
    have heq : ({ e with _attr_brightness := (none : Option ℤ) }) = e := by rw [← hbnone]
    rw [heq]
    simp [hbnone]

theorem colortemp_update_step_eq (e : DreoLightHA) (dev : PyDreoDevice) (cv : Option ℤ)
    (hc : DreoLightHA.color_temp_kelvin e dev = .ok cv)
    (hinv : ColorMode.color_temp ∉ e._attr_supported_color_modes →
      e._attr_color_temp_kelvin = none) :
    colortemp_update_step e dev =
      .ok ({ e with _attr_color_temp_kelvin := cv }, decide (e._attr_color_temp_kelvin ≠ cv)) := by
  unfold colortemp_update_step
  by_cases hg : ¬e._attr_supported_color_modes = ∅ ∧
      ColorMode.color_temp ∈ e._attr_supported_color_modes
  · rw [if_pos hg, hc, except_map_ok]
    by_cases hch : e._attr_color_temp_kelvin = cv
    · rw [if_neg (fun hh => hh hch)]
      have heq : ({ e with _attr_color_temp_kelvin := cv }) = e := by rw [← hch]
      rw [heq]
      simp [hch]
    · rw [if_pos hch]
      simp [hch]
  · rw [if_neg hg]
    have hmem : ColorMode.color_temp ∉ e._attr_supported_color_modes := by
      rcases not_and_or.mp hg with h | h
      · rw [not_not.mp h]
        exact Finset.not_mem_empty _
      · exact h
    have hcnone : e._attr_color_temp_kelvin = none := hinv hmem
    have hcv : cv = none := by
      have h0 := colortemp_none_of_not_mem e dev hmem
      rw [hc] at h0
      injection h0 with h0
    rw [hcv]
    have heq : ({ e with _attr_color_temp_kelvin := (none : Option ℤ) }) = e := by rw [← hcnone]
    rw [heq]
    simp [hcnone]

theorem brightness_no_raise (e : DreoLightHA) (dev : PyDreoDevice)
    (hbr : ∀ l, dev.brightness ≠ PyVal.pyList l) :
    ∃ r, DreoLightHA.brightness e dev = Except.ok r := by
  cases hv : dev.brightness with
  | pyList l => exact absurd hv (hbr l)
  | pyStr s =>
    cases hp : pyParseFloat s with
    | none =>
      simp only [DreoLightHA.brightness, hv, pyFloatOf, hp]
      repeat' split
      all_goals exact ⟨_, rfl⟩
    | some q =>
      simp only [DreoLightHA.brightness, hv, pyFloatOf, hp]
      repeat' split
      all_goals exact ⟨_, rfl⟩
  | pyNone =>
    simp only [DreoLightHA.brightness, hv, pyFloatOf, PyVal.isNone, Bool.not_true,
      Bool.false_and, Bool.false_eq_true, if_false]
    repeat' split
    all_goals exact ⟨_, rfl⟩
  | pyBool b =>
    simp only [DreoLightHA.brightness, hv, pyFloatOf]
    repeat' split
    all_goals exact ⟨_, rfl⟩
  | pyInt n =>
    simp only [DreoLightHA.brightness, hv, pyFloatOf]
    repeat' split
    all_goals exact ⟨_, rfl⟩
  | pyFloat q =>
    simp only [DreoLightHA.brightness, hv, pyFloatOf]
    repeat' split
    all_goals exact ⟨_, rfl⟩

theorem colortemp_no_raise (e : DreoLightHA) (dev : PyDreoDevice)
    (hct : ∀ l, dev.colortemp ≠ PyVal.pyList l) :
    ∃ r, DreoLightHA.color_temp_kelvin e dev = Except.ok r := by
  cases hv : dev.colortemp with
  | pyList l => exact absurd hv (hct l)
  | pyStr s =>
    cases hp : pyParseFloat s with
    | none =>
      simp only [DreoLightHA.color_temp_kelvin, hv, pyFloatOf, hp]
      repeat' split
      all_goals exact ⟨_, rfl⟩
    | some q =>
      simp only [DreoLightHA.color_temp_kelvin, hv, pyFloatOf, hp]
      repeat' split
      all_goals exact ⟨_, rfl⟩
  | pyNone =>
    simp only [DreoLightHA.color_temp_kelvin, hv, pyFloatOf, PyVal.isNone, Bool.not_true,
      Bool.false_and, Bool.false_eq_true, if_false]
    repeat' split
    all_goals exact ⟨_, rfl⟩
  | pyBool b =>
    simp only [DreoLightHA.color_temp_kelvin, hv, pyFloatOf]
    repeat' split
    all_goals exact ⟨_, rfl⟩
  | pyInt n =>
    simp only [DreoLightHA.color_temp_kelvin, hv, pyFloatOf]
    repeat' split
    all_goals exact ⟨_, rfl⟩
  | pyFloat q =>
    simp only [DreoLightHA.color_temp_kelvin, hv, pyFloatOf]
    repeat' split
    all_goals exact ⟨_, rfl⟩

theorem brightness_badstr_none (e : DreoLightHA) (dev : PyDreoDevice) (s : String)
    (hv : dev.brightness = PyVal.pyStr s) (hp : pyParseFloat s = none) :
    DreoLightHA.brightness e dev = .ok none := by
  simp only [DreoLightHA.brightness, hv, pyFloatOf, hp]
  repeat' split
  all_goals rfl

theorem colortemp_badstr_none (e : DreoLightHA) (dev : PyDreoDevice) (s : String)
    (hv : dev.colortemp = PyVal.pyStr s) (hp : pyParseFloat s = none) :
    DreoLightHA.color_temp_kelvin e dev = .ok none := by
  simp only [DreoLightHA.color_temp_kelvin, hv, pyFloatOf, hp]
  repeat' split
  all_goals rfl

/-!  Claim theorems. -/

/-- Claim C1, counterexample: converting host brightness 14 to the device
range `(1, 100)` (as `async_turn_on` does) and back (as the `brightness`
getter does) yields 10, which is not within plus-or-minus 1 of 14. -/
theorem brightness_roundtrip_pm1_counterexample :
    deviceToHostBrightness ((turnOnDeviceBrightness 14 (1, 100) : ℤ) : ℚ) 1 100 = 10 ∧
      ¬|deviceToHostBrightness ((turnOnDeviceBrightness 14 (1, 100) : ℤ) : ℚ) 1 100 - 14| ≤ 1 := by
  constructor
  · rw [roundTrip_int]
    decide
  · rw [roundTrip_int]
    decide

set_option maxRecDepth 4000 in
/-- Claim C1 (amended): for every host brightness `b` in `[0, 255]` and the
native range `(1, 100)`, converting `b` to a device brightness (as done in
`async_turn_on`) and the device value back to host brightness (as done in
the `brightness` property getter) yields a value within plus-or-minus 4 of
`b` (the bound 1 fails, see the counterexample; 4 is exhaustively tight). -/
theorem brightness_roundtrip_within_four (b : ℤ) (h0 : 0 ≤ b) (h255 : b ≤ 255) :
    |deviceToHostBrightness ((turnOnDeviceBrightness b (1, 100) : ℤ) : ℚ) 1 100 - b| ≤ 4 := by
  rw [roundTrip_int]
  obtain ⟨n, rfl⟩ : ∃ n : ℕ, b = (n : ℤ) := ⟨b.toNat, (Int.toNat_of_nonneg h0).symm⟩
  have hn : n < 256 := by omega
  have key : ∀ m : ℕ, m < 256 → |roundTripBrightnessInt (m : ℤ) - (m : ℤ)| ≤ 4 := by decide
  exact key n hn

/-- Witness for `brightness_roundtrip_within_four` at host brightness 128. -/
theorem brightness_roundtrip_within_four_witness :
    (0 : ℤ) ≤ 128 ∧ (128 : ℤ) ≤ 255 ∧
      |deviceToHostBrightness ((turnOnDeviceBrightness 128 (1, 100) : ℤ) : ℚ) 1 100 - 128| ≤ 4 :=
  ⟨by decide, by decide, brightness_roundtrip_within_four 128 (by decide) (by decide)⟩

/-- Claim C2, counterexample: at host brightness 128 and native range
`(1, 100)`, `async_turn_on` computes the device value 50 (via Home
Assistant's `percentage_to_ranged_value`, span `max-min+1` and offset
`min-1`), while the spec's formula `round(pct/100*(max-min)+min)` gives
51. -/
theorem toDeviceBrightness_spec_formula_counterexample :
    turnOnDeviceBrightness 128 (1, 100) = 50 ∧ specToDeviceBrightness 128 (1, 100) = 51 ∧
      turnOnDeviceBrightness 128 (1, 100) ≠ specToDeviceBrightness 128 (1, 100) := by
  refine ⟨?_, ?_, ?_⟩
  · rw [turnOnDeviceBrightness_int]
    decide
  · rw [specToDeviceBrightness_int]
    decide
  · rw [turnOnDeviceBrightness_int, specToDeviceBrightness_int]
    decide

/-- Claim C2 (amended): for every host brightness `hb` in `0..255` and
native range `(min, max)` with `min < max`, `async_turn_on` sends exactly
the native value `round((hb/255*100)/100 * (max-min+1) + (min-1))` clamped
to `[min, max]` (i.e. Home Assistant's `percentage_to_ranged_value`
convention, not the spec's `(max-min)`/`min` convention); in particular
input 0 with range `(1, 100)` yields 1 and input 255 yields 100. -/
theorem async_turn_on_brightness_value (e : DreoLightHA) (dev : PyDreoDevice)
    (hb dmin dmax : ℤ) (h0 : 0 ≤ hb) (h255 : hb ≤ 255) (hlt : dmin < dmax)
    (hcmd : optStrTruthy e.entity_description.pydreo_brightness_cmd = true)
    (hrange : e.entity_description.pydreo_brightness_range = some (dmin, dmax)) :
    async_turn_on e dev { brightness := some hb, color_temp_kelvin := none } =
      .ok (e, setattrOnDevice (set_pydreo_state e dev true) "brightness"
        (PyVal.pyInt (turnOnDeviceBrightness hb (dmin, dmax)))) ∧
    turnOnDeviceBrightness hb (dmin, dmax) =
      max dmin (min dmax (pyRound
        (((hb : ℚ) / 255 * 100) / 100 * ((dmax : ℚ) - (dmin : ℚ) + 1) + ((dmin : ℚ) - 1)))) ∧
    turnOnDeviceBrightness 0 (1, 100) = 1 ∧ turnOnDeviceBrightness 255 (1, 100) = 100 := by
  refine ⟨by simp [async_turn_on, hcmd, hrange], ?_, ?_, ?_⟩
  · simp only [turnOnDeviceBrightness]
    have harg : percentage_to_ranged_value (dmin, dmax) (((hb : ℚ) / 255) * 100) =
        ((hb : ℚ) / 255 * 100) / 100 * ((dmax : ℚ) - (dmin : ℚ) + 1) + ((dmin : ℚ) - 1) := by
      simp only [percentage_to_ranged_value, states_in_range]
      push_cast
      ring
    rw [harg]
  · rw [turnOnDeviceBrightness_int]
    decide
  · rw [turnOnDeviceBrightness_int]
    decide

/-- Witness for `async_turn_on_brightness_value`: the main light feature,
host brightness 128, native range `(1, 100)`. -/
theorem async_turn_on_brightness_value_witness :
    async_turn_on (mkDreoLightHA mainLightFeature) emptyDevice
        { brightness := some 128, color_temp_kelvin := none } =
      .ok (mkDreoLightHA mainLightFeature,
        setattrOnDevice (set_pydreo_state (mkDreoLightHA mainLightFeature) emptyDevice true)
          "brightness" (PyVal.pyInt (turnOnDeviceBrightness 128 (1, 100)))) ∧
    turnOnDeviceBrightness 128 (1, 100) =
      max 1 (min 100 (pyRound
        (((128 : ℚ) / 255 * 100) / 100 * ((100 : ℚ) - (1 : ℚ) + 1) + ((1 : ℚ) - 1)))) ∧
    turnOnDeviceBrightness 0 (1, 100) = 1 ∧ turnOnDeviceBrightness 255 (1, 100) = 100 := by
  have h := async_turn_on_brightness_value (mkDreoLightHA mainLightFeature) emptyDevice
    128 1 100 (by decide) (by decide) (by decide) (by decide) rfl
  exact ⟨h.1, by have h2 := h.2.1; push_cast at h2 ⊢; exact h2, h.2.2.1, h.2.2.2⟩

/-- Claim C3: one coordinator update emits exactly one state-changed
notification (`async_write_ha_state` call) when any tracked effective value
(on/off boolean, host brightness, host color-temperature Kelvin) differs
from the cached entity snapshot, and none when nothing differs — never one
notification per attribute.  The invariant hypotheses (a mode that is not
supported has a `None` cached value) hold for every entity produced by
`__init__` and are preserved by the update itself. -/
theorem handle_coordinator_update_one_notification
    (e : DreoLightHA) (dev : PyDreoDevice) (bv cv : Option ℤ)
    (hb : DreoLightHA.brightness e dev = .ok bv)
    (hc : DreoLightHA.color_temp_kelvin e dev = .ok cv)
    (hinvb : ColorMode.brightness ∉ e._attr_supported_color_modes → e._attr_brightness = none)
    (hinvc : ColorMode.color_temp ∉ e._attr_supported_color_modes →
      e._attr_color_temp_kelvin = none) :
    (handle_coordinator_update e dev).map Prod.snd =
      .ok (if e._attr_is_on ≠ some (get_pydreo_state e dev) ∨ e._attr_brightness ≠ bv ∨
        e._attr_color_temp_kelvin ≠ cv then 1 else 0) := by
  have he1 : (if e._attr_is_on ≠ some (get_pydreo_state e dev) then
      { e with _attr_is_on := some (get_pydreo_state e dev) } else e) =
      { e with _attr_is_on := some (get_pydreo_state e dev) } := by
    by_cases h : e._attr_is_on = some (get_pydreo_state e dev)
    · have heq : ({ e with _attr_is_on := some (get_pydreo_state e dev) }) = e := by rw [← h]
      rw [if_neg (fun hh => hh h), heq]
    · rw [if_pos h]
  simp only [handle_coordinator_update, he1]
  rw [brightness_update_step_eq _ dev bv (by exact hb) (by exact hinvb)]
  rw [except_ok_bind]
  rw [colortemp_update_step_eq _ dev cv (by exact hc) (by exact hinvc)]
  rw [except_ok_bind, except_map_ok]
  by_cases h1 : e._attr_is_on = some (get_pydreo_state e dev) <;>
    by_cases h2 : e._attr_brightness = bv <;>
    by_cases h3 : e._attr_color_temp_kelvin = cv <;>
    simp [h1, h2, h3]

/-- Witness for `handle_coordinator_update_one_notification`: the panel
light with a silent device; only the on/off value differs from the cached
`None`, so exactly one notification is emitted. -/
theorem handle_coordinator_update_one_notification_witness :
    DreoLightHA.brightness (mkDreoLightHA panelLightFeature) emptyDevice = .ok none ∧
    DreoLightHA.color_temp_kelvin (mkDreoLightHA panelLightFeature) emptyDevice = .ok none ∧
    (handle_coordinator_update (mkDreoLightHA panelLightFeature) emptyDevice).map Prod.snd =
      .ok (if (mkDreoLightHA panelLightFeature)._attr_is_on ≠
          some (get_pydreo_state (mkDreoLightHA panelLightFeature) emptyDevice) ∨
          (mkDreoLightHA panelLightFeature)._attr_brightness ≠ none ∨
          (mkDreoLightHA panelLightFeature)._attr_color_temp_kelvin ≠ none then 1 else 0) :=
  ⟨rfl, rfl, handle_coordinator_update_one_notification (mkDreoLightHA panelLightFeature)
    emptyDevice none none rfl rfl (fun _ => rfl) (fun _ => rfl)⟩

/-- Claim C4, counterexample: reading `color_temp_kelvin` while the device
reports a Python list raises `TypeError` — `float(list)` raises `TypeError`,
which the `except ValueError` on light.py line 389 does not catch — so the
reads are not exception-free for values of any type. -/
theorem color_temp_kelvin_raises_on_list :
    DreoLightHA.color_temp_kelvin (mkDreoLightHA mainLightFeature) listValueDevice =
      .error PyErr.typeError := by rfl

/-- Claim C4 (amended): for every raw native brightness/color-temperature
value that is not a list (`None`, boolean, number, or string), the
`brightness` and `color_temp_kelvin` property reads never raise, and a
non-numeric string yields `None`; a list value, however, raises an uncaught
`TypeError` (see the counterexample). -/
theorem property_reads_no_raise_amended (e : DreoLightHA) (dev : PyDreoDevice)
    (hbr : ∀ l, dev.brightness ≠ PyVal.pyList l)
    (hct : ∀ l, dev.colortemp ≠ PyVal.pyList l) :
    (∃ r, DreoLightHA.brightness e dev = .ok r) ∧
    (∃ r, DreoLightHA.color_temp_kelvin e dev = .ok r) ∧
    (∀ s, dev.brightness = PyVal.pyStr s → pyParseFloat s = none →
      DreoLightHA.brightness e dev = .ok none) ∧
    (∀ s, dev.colortemp = PyVal.pyStr s → pyParseFloat s = none →
      DreoLightHA.color_temp_kelvin e dev = .ok none) :=
  ⟨brightness_no_raise e dev hbr, colortemp_no_raise e dev hct,
    fun s hv hp => brightness_badstr_none e dev s hv hp,
    fun s hv hp => colortemp_badstr_none e dev s hv hp⟩

/-- Witness for `property_reads_no_raise_amended`: the main light with a
device reporting the non-numeric brightness string `"bad"` reads as
`None` instead of raising. -/
theorem property_reads_no_raise_amended_witness :
    DreoLightHA.brightness (mkDreoLightHA mainLightFeature) badStringDevice = .ok none :=
  (property_reads_no_raise_amended (mkDreoLightHA mainLightFeature) badStringDevice
    (fun _ h => PyVal.noConfusion h) (fun _ h => PyVal.noConfusion h)).2.2.1 "bad" rfl rfl

/-- Claim C5: a descriptor configuring both a brightness command and a
color-temperature command with Kelvin bounds yields the supported-mode set
exactly `{COLOR_TEMP}` — never `{BRIGHTNESS, COLOR_TEMP}` — and current
color mode `COLOR_TEMP`. -/
theorem supported_modes_exactly_color_temp (d : DreoLightEntityDescription)
    (hbcmd : optStrTruthy d.pydreo_brightness_cmd = true)
    (hccmd : optStrTruthy d.pydreo_colortemp_cmd = true)
    (hmin : optIntTruthy d.ha_min_color_temp_kelvin = true)
    (hmax : optIntTruthy d.ha_max_color_temp_kelvin = true) :
    (mkDreoLightHA d)._attr_supported_color_modes = {ColorMode.color_temp} ∧
      (mkDreoLightHA d)._attr_color_mode = ColorMode.color_temp := by
  have hmodes : initSupportedColorModes d = {ColorMode.color_temp} := by
    simp [initSupportedColorModes, hbcmd, hccmd, hmin, hmax]
  constructor
  · show initSupportedColorModes d = {ColorMode.color_temp}
    exact hmodes
  · show initColorMode (initSupportedColorModes d) = ColorMode.color_temp
    rw [hmodes]
    simp [initColorMode]

/-- Witness for `supported_modes_exactly_color_temp`: the main fan light
descriptor from `SUPPORTED_LIGHT_FEATURES`. -/
theorem supported_modes_exactly_color_temp_witness :
    (mkDreoLightHA mainLightFeature)._attr_supported_color_modes = {ColorMode.color_temp} ∧
      (mkDreoLightHA mainLightFeature)._attr_color_mode = ColorMode.color_temp :=
  supported_modes_exactly_color_temp mainLightFeature (by decide) (by decide) (by decide)
    (by decide)

/-- Claim C6, code-bug evidence: the main light negotiates color mode
`COLOR_TEMP` (with supported modes exactly `{COLOR_TEMP}`), yet its
`brightness` property read returns `None` even when the device reports the
in-range numeric native brightness 50 — the getter demands
`ColorMode.BRIGHTNESS ∈ supported_color_modes` (light.py line 347), which
`__init__` deliberately leaves out of the mode set even though its own
comment says color-temperature support implies brightness control. -/
theorem brightness_none_despite_color_temp_mode :
    (mkDreoLightHA mainLightFeature)._attr_color_mode = ColorMode.color_temp ∧
    (mkDreoLightHA mainLightFeature)._attr_supported_color_modes = {ColorMode.color_temp} ∧
    DreoLightHA.brightness (mkDreoLightHA mainLightFeature) numericDevice = .ok none :=
  ⟨by decide, by decide, by rfl⟩

/-- Claim C7: `async_turn_on` (with any combination of brightness and
color-temperature options) and `async_turn_off` leave the cached
`_attr_is_on`, `_attr_brightness` and `_attr_color_temp_kelvin` entity
state unchanged when they return: the command path only sends native
commands. -/
theorem turn_on_off_preserve_cached_state (e : DreoLightHA) (dev : PyDreoDevice)
    (kwargs : TurnOnKwargs) (r : DreoLightHA × PyDreoDevice)
    (h : async_turn_on e dev kwargs = .ok r) :
    r.1._attr_is_on = e._attr_is_on ∧ r.1._attr_brightness = e._attr_brightness ∧
      r.1._attr_color_temp_kelvin = e._attr_color_temp_kelvin ∧
      (async_turn_off e dev).1._attr_is_on = e._attr_is_on ∧
      (async_turn_off e dev).1._attr_brightness = e._attr_brightness ∧
      (async_turn_off e dev).1._attr_color_temp_kelvin = e._attr_color_temp_kelvin := by
  have hr : r.1 = e := by
    unfold async_turn_on at h
    repeat' split at h
    all_goals first
      | exact Except.noConfusion h
      | (cases h; rfl)
  refine ⟨by rw [hr], by rw [hr], by rw [hr], rfl, rfl, rfl⟩

/-- Witness for `turn_on_off_preserve_cached_state`: turning the panel
light on with no options. -/
theorem turn_on_off_preserve_cached_state_witness :
    turnOnPanelResult.1._attr_is_on = (mkDreoLightHA panelLightFeature)._attr_is_on ∧
      turnOnPanelResult.1._attr_brightness = (mkDreoLightHA panelLightFeature)._attr_brightness ∧
      turnOnPanelResult.1._attr_color_temp_kelvin =
        (mkDreoLightHA panelLightFeature)._attr_color_temp_kelvin ∧
      (async_turn_off (mkDreoLightHA panelLightFeature) emptyDevice).1._attr_is_on =
        (mkDreoLightHA panelLightFeature)._attr_is_on ∧
      (async_turn_off (mkDreoLightHA panelLightFeature) emptyDevice).1._attr_brightness =
        (mkDreoLightHA panelLightFeature)._attr_brightness ∧
      (async_turn_off (mkDreoLightHA panelLightFeature) emptyDevice).1._attr_color_temp_kelvin =
        (mkDreoLightHA panelLightFeature)._attr_color_temp_kelvin :=
  turn_on_off_preserve_cached_state (mkDreoLightHA panelLightFeature) emptyDevice {}
    turnOnPanelResult rfl

/-- Claim C8: for every Kelvin input, the host-to-device color-temperature
conversion of `async_turn_on` with a degenerate host Kelvin range
(`min_k = max_k`) returns the native minimum — the dividing branch is
guarded off, so no division is performed — and in particular
`toDeviceColorTemp(anyKelvin, (2700, 2700), (0, 100)) = 0`. -/
theorem colortemp_degenerate_range_returns_min (ha_kelvin min_k pct_min pct_max : ℤ) :
    turnOnDeviceColortemp ha_kelvin min_k min_k (pct_min, pct_max) = pct_min ∧
      turnOnDeviceColortemp ha_kelvin 2700 2700 (0, 100) = 0 := by
  have key : ∀ k mk pmin pmax : ℤ, turnOnDeviceColortemp k mk mk (pmin, pmax) = pmin := by
    intro k mk pmin pmax
    have h : max (pmin : ℚ) (min (pmax : ℚ) (pmin : ℚ)) = (pmin : ℚ) :=
      max_eq_left (min_le_right _ _)
    simp only [turnOnDeviceColortemp, ite_true]
    rw [h, pyRound_intCast]
  exact ⟨key ha_kelvin min_k pct_min pct_max, key ha_kelvin 2700 0 100⟩

/-- Claim C9: with a degenerate native brightness range (`max = min`), the
device-to-host brightness read returns 255 for a numeric native value
`v ≥ min` and 0 otherwise, and returns `None` when the native value is
`None`. -/
theorem brightness_degenerate_range_spec (e : DreoLightHA) (dev : PyDreoDevice) (m : ℤ)
    (hmode : ColorMode.brightness ∈ e._attr_supported_color_modes)
    (hcmd : optStrTruthy e.entity_description.pydreo_brightness_cmd = true)
    (hrange : e.entity_description.pydreo_brightness_range = some (m, m)) :
    (∀ q : ℚ, pyFloatOf dev.brightness = .ok q →
      DreoLightHA.brightness e dev = .ok (some (if (m : ℚ) ≤ q then 255 else 0))) ∧
    (dev.brightness = PyVal.pyNone → DreoLightHA.brightness e dev = .ok none) := by
  have hguard : ¬(e._attr_supported_color_modes = ∅ ∨
      ColorMode.brightness ∉ e._attr_supported_color_modes) := by
    rintro (h | h)
    · rw [h] at hmode
      exact Finset.not_mem_empty _ hmode
    · exact h hmode
  constructor
  · intro q hq
    have hnn : dev.brightness.isNone = false := by
      cases hv : dev.brightness
      · rw [hv] at hq
        simp [pyFloatOf] at hq
      all_goals rfl
    unfold DreoLightHA.brightness
    rw [if_neg hguard, if_pos hcmd, if_pos (by simp [hnn, hrange]), hq]
    simp [hrange, deviceToHostBrightness]
  · intro hnone
    unfold DreoLightHA.brightness
    rw [if_neg hguard, if_pos hcmd, if_neg (by simp [hnone, PyVal.isNone])]

/-- Witness for `brightness_degenerate_range_spec`: range `(5, 5)` and a
device reporting native brightness 7. -/
theorem brightness_degenerate_range_spec_witness :
    DreoLightHA.brightness (mkDreoLightHA degenerateBrightnessFeature) intBrightness7Device =
      .ok (some (if ((5 : ℤ) : ℚ) ≤ ((7 : ℤ) : ℚ) then 255 else 0)) :=
  (brightness_degenerate_range_spec (mkDreoLightHA degenerateBrightnessFeature)
    intBrightness7Device 5 (by decide) (by decide) rfl).1 ((7 : ℤ) : ℚ) rfl

/-- Claim C10: the on/off read `_get_pydreo_state` is total and boolean —
it returns `false` when neither a value function nor a (configured and
present) native attribute is available, compares a string value
case-insensitively against `"on"`, and coerces any other value with
standard Python truthiness; no branch can raise. -/
theorem get_pydreo_state_total_spec (e : DreoLightHA) (dev : PyDreoDevice) :
    (e.entity_description.value_fn = none →
      optStrTruthy e.entity_description.pydreo_light_attr = false →
      get_pydreo_state e dev = false) ∧
    (∀ a, e.entity_description.value_fn = none →
      e.entity_description.pydreo_light_attr = some a → a ≠ "" →
      dev.attrs a = none → get_pydreo_state e dev = false) ∧
    (∀ a s, e.entity_description.value_fn = none →
      e.entity_description.pydreo_light_attr = some a → a ≠ "" →
      dev.attrs a = some (PyVal.pyStr s) →
      (get_pydreo_state e dev = true ↔ s.toLower = "on")) ∧
    (∀ a v, e.entity_description.value_fn = none →
      e.entity_description.pydreo_light_attr = some a → a ≠ "" →
      dev.attrs a = some v → (∀ s, v ≠ PyVal.pyStr s) →
      get_pydreo_state e dev = pyTruthy v) := by
  refine ⟨?_, ?_, ?_, ?_⟩
  · intro hfn hattr
    simp [get_pydreo_state, hfn, hattr]
  · intro a hfn hattr ha hdev
    simp [get_pydreo_state, hfn, hattr, optStrTruthy, ha, hdev, pyTruthy]
  · intro a s hfn hattr ha hdev
    simp [get_pydreo_state, hfn, hattr, optStrTruthy, ha, hdev]
  · intro a v hfn hattr ha hdev hnostr
    cases v with
    | pyStr s => exact absurd rfl (hnostr s)
    | pyNone => simp [get_pydreo_state, hfn, hattr, optStrTruthy, ha, hdev]
    | pyBool b => simp [get_pydreo_state, hfn, hattr, optStrTruthy, ha, hdev]
    | pyInt n => simp [get_pydreo_state, hfn, hattr, optStrTruthy, ha, hdev]
    | pyFloat q => simp [get_pydreo_state, hfn, hattr, optStrTruthy, ha, hdev]
    | pyList l => simp [get_pydreo_state, hfn, hattr, optStrTruthy, ha, hdev]

/-- Witness for `get_pydreo_state_total_spec`: the panel light whose native
attribute reports the string `"ON"` reads as on. -/
theorem get_pydreo_state_total_spec_witness :
    get_pydreo_state (mkDreoLightHA panelLightFeature) onStringDevice = true ↔
      "ON".toLower = "on" :=
  (get_pydreo_state_total_spec (mkDreoLightHA panelLightFeature) onStringDevice).2.2.1
    "ledpotkepton" "ON" rfl rfl (by decide) rfl
